import Mathlib

/-!
Verification of the runtime-bootstrap and serverless-handler scripts
(`scripts/bootstrap.py`, `scripts/rp_handler.py`) against their
natural-language specification.

The development is a shallow embedding: each Python function that a claim
depends on is translated into an executable Lean function.  External
effects (subprocess spawn, HTTP requests, S3 calls, filesystem tests) are
passed in as explicit oracle values describing the outcome the outside
world produced, so the control flow of the scripts themselves is modelled
exactly.  Python exceptions become `Except` results; Python `None`/string
environment lookups become `Option String`.

Symbols that `rp_handler.py` imports from `bootstrap` but that are absent
from the sources (`LAUNCHED_MODEL_UID`, `MODEL_READY`,
`_fetch_image_from_url`, `_decode_base64_image`) are modelled from the
specification and marked as such in their doc comments.  Relatedly,
`rp_handler._init_runtime` calls `wait_for_server(endpoint, server_proc=...)`
and `launch_models(endpoint, _server_proc)` with signatures the
`bootstrap.py` in the sources does not accept: the handler was written
against the same missing revision of `bootstrap` that defines the symbols
above, so the handler-side boot steps are modelled as outcome oracles
(`BootOracle`) rather than by inlining the present `bootstrap.py` bodies,
while the `bootstrap.py` functions themselves are embedded directly from the
source for the claims about them.
-/

namespace PyStr

/-- ASCII lower-casing of one character, as `str.lower` does for ASCII. -/
def lowerChar (c : Char) : Char :=
  if 'A' ≤ c ∧ c ≤ 'Z' then Char.ofNat (c.toNat + 32) else c

/-- Python `s.lower()` (ASCII range; the configuration strings involved are ASCII). -/
def lower (s : String) : String := ⟨s.data.map lowerChar⟩

/-- Auxiliary: is `pat` a contiguous sub-list of `l`? -/
def subOf (pat : List Char) : List Char → Bool
  | [] => pat.isPrefixOf ([] : List Char)
  | c :: rest => pat.isPrefixOf (c :: rest) || subOf pat rest

/-- Python `pat in hay` substring test. -/
def containsSub (hay pat : String) : Bool := subOf pat.data hay.data

/-- Python `s.endswith(c)` for a one-character suffix. -/
def endsWithCh (s : String) (c : Char) : Bool := s.data.getLast? = some c

/-- Python `s.lstrip(c)` for a one-character strip set. -/
def lstripCh (s : String) (c : Char) : String := ⟨s.data.dropWhile (· = c)⟩

/-- Python `s.startswith(p)`. -/
def startsWith (s p : String) : Bool := p.data.isPrefixOf s.data

/-- Python `s.strip()` (whitespace at both ends). -/
def strip (s : String) : String :=
  ⟨((s.data.dropWhile Char.isWhitespace).reverse.dropWhile Char.isWhitespace).reverse⟩

/-- Python `s[n:]`: drop the first `n` characters. -/
def dropChars (s : String) (n : Nat) : String := ⟨s.data.drop n⟩

/-- Python `s.split(sep)` for the one-character separator used in the source. -/
def splitCh (c : Char) (l : List Char) (acc : List Char) : List String :=
  match l with
  | [] => [⟨acc.reverse⟩]
  | d :: rest => if d = c then ⟨acc.reverse⟩ :: splitCh c rest [] else splitCh c rest (d :: acc)

/-- Python `s.split(",")`. -/
def splitComma (s : String) : List String := splitCh ',' s.data []

/-- Auxiliary for `digitsVal`: left-to-right accumulation over decimal digits. -/
def digitsAux : List Char → Nat → Option Nat
  | [], acc => some acc
  | c :: rest, acc => if c.isDigit then digitsAux rest (acc * 10 + (c.toNat - 48)) else none

/-- Value of a non-empty digit run, if the characters are all decimal digits. -/
def digitsVal : List Char → Option Nat
  | [] => none
  | l => digitsAux l 0

/-- Python `int(s)` on a decimal string: surrounding whitespace allowed, one
optional sign, then digits; `none` models the `ValueError` raise.  (Underscore
digit grouping, accepted by CPython, is not modelled; no claim depends on it.) -/
def intParse (s : String) : Option Int :=
  let t := ((s.data.dropWhile Char.isWhitespace).reverse.dropWhile Char.isWhitespace).reverse
  match t with
  | '+' :: ds => (digitsVal ds).map Int.ofNat
  | '-' :: ds => (digitsVal ds).map (fun n => -(n : Int))
  | ds => (digitsVal ds).map Int.ofNat

end PyStr

/-- Process environment: a total map from variable name to the optional string
value, mirroring `os.getenv`. -/
def Env : Type := String → Option String

/-- Python `os.getenv(k, dflt)`. -/
def getenvD (env : Env) (k dflt : String) : String := (env k).getD dflt

/-- Python truthiness of an `Optional[str]`: `None` and `""` are falsy. -/
def optTruthy : Option String → Bool
  | none => false
  | some s => s ≠ ""

/-- The truthy-string set of `bootstrap.parse_bool`. -/
def truthySet : List String := ["1", "true", "t", "yes", "y", "on"]

/-- Python `str(value)` for an `Optional[str]` argument. -/
def pyStrOfOpt : Option String → String
  | none => "None"
  | some s => s

/-- Embedding of `bootstrap.parse_bool` (bootstrap.py lines 43-44):
`str(value).lower() in {"1", "true", "t", "yes", "y", "on"}`. -/
def parse_bool (value : Option String) : Bool :=
  truthySet.contains (PyStr.lower (pyStrOfOpt value))

/-- A value stored in the launch-kwargs dictionary: the source stores strings
from the environment and booleans from `parse_bool`. -/
inductive LVal where
  | str (s : String)
  | bool (b : Bool)
  deriving DecidableEq

/-- One optional string field of `build_launch_kwargs`
(bootstrap.py lines 110-113): included only when the variable is set and
non-empty (`if value:`). -/
def strFieldVal (env : Env) (envKey : String) : Option LVal :=
  match env envKey with
  | some v => if v = "" then none else some (.str v)
  | none => none

/-- One optional boolean field of `build_launch_kwargs`
(bootstrap.py lines 121-124): included whenever the variable is present
(`if raw_value is not None:`), with the parsed boolean value. -/
def boolFieldVal (env : Env) (envKey : String) : Option LVal :=
  (env envKey).map (fun raw => .bool (parse_bool (some raw)))

/-- Default primary model name (bootstrap.py line 98). -/
def defaultModelName : String := "Wan2.1-i2v-14B-480p"

/-- Embedding of `bootstrap.build_launch_kwargs` (bootstrap.py lines 96-126).
The Python dict over a statically known key set is represented as an
association list with every key present and an `Option LVal` value; `none`
means the key was not inserted. -/
def build_launch_kwargs (env : Env) : List (String × Option LVal) :=
  [("model_name", some (.str (getenvD env "VIDEO_MODEL_NAME" defaultModelName))),
   ("model_type", some (.str (getenvD env "VIDEO_MODEL_TYPE" "video"))),
   ("model_engine", strFieldVal env "VIDEO_MODEL_ENGINE"),
   ("model_format", strFieldVal env "VIDEO_MODEL_FORMAT"),
   ("model_uid", strFieldVal env "VIDEO_MODEL_UID"),
   ("model_path", strFieldVal env "VIDEO_MODEL_PATH"),
   ("size_in_billions", strFieldVal env "VIDEO_SIZE_IN_BILLIONS"),
   ("quantization", strFieldVal env "VIDEO_QUANTIZATION"),
   ("layerwise_cast", boolFieldVal env "VIDEO_LAYERWISE_CAST"),
   ("cpu_offload", boolFieldVal env "VIDEO_CPU_OFFLOAD"),
   ("group_offload", boolFieldVal env "VIDEO_GROUP_OFFLOAD"),
   ("use_stream", boolFieldVal env "VIDEO_USE_STREAM")]

/-- Dictionary lookup on the launch-kwargs representation: a key maps to a
value exactly when it was inserted. -/
def getKw (kw : List (String × Option LVal)) (k : String) : Option LVal :=
  (kw.lookup k).join

/-- Concrete environment for the C4 witness: an explicitly falsy boolean,
an empty string field, and a set string field. -/
def envC4w : Env := fun k =>
  if k = "VIDEO_CPU_OFFLOAD" then some "0"
  else if k = "VIDEO_MODEL_ENGINE" then some ""
  else if k = "VIDEO_QUANTIZATION" then some "q4" else none

/-- Outcome of one `s3.head_object` call: success, a 404 `ClientError`, or a
`ClientError` with another status (which the source re-raises). -/
inductive HeadRes where
  | ok
  | notFound
  | failure (e : String)
  deriving DecidableEq

/-- Oracle for the object store and local filesystem as `ensure_s3_model`
observes them: per-key HEAD results, the paginated listing (or its
`ClientError`), local-file existence, and per-key download outcomes. -/
structure S3World where
  head : String → HeadRes
  listing : Except String (List String)
  fileExists : String → Bool
  download : String → Except String Unit

/-- Failure modes of `ensure_s3_model`.  The source raises `RuntimeError`
with distinct messages at each site (bootstrap.py lines 154, 198, 218, 227)
or re-raises the transport error; the spec names them `ConfigurationError`,
`MissingAssetsError`, `ListingError`, `NoAssetsError`. -/
inductive SyncErr where
  | configMissing
  | missingKeys (keys : List String)
  | headFailure (e : String)
  | listingFailure (e : String)
  | noAssets (pfx bucket : String)
  | downloadFailure (e : String)
  deriving DecidableEq

/-- Normalized key root (bootstrap.py lines 135 and 156):
`MODEL_S3_PREFIX` with leading slashes stripped, then forced to end in `/`
unless empty. -/
def normPfxOf (env : Env) : String :=
  let pfx := PyStr.lstripCh (getenvD env "MODEL_S3_PREFIX" "") '/'
  if pfx = "" || PyStr.endsWithCh pfx '/' then pfx else pfx ++ "/"

/-- Required-keys list (bootstrap.py lines 138-139): split `MODEL_REQUIRE_KEYS`
on commas, strip whitespace, keep the non-empty entries. -/
def requiredKeysOf (env : Env) : List String :=
  ((PyStr.splitComma (getenvD env "MODEL_REQUIRE_KEYS" "")).map PyStr.strip).filter
    (fun k => k ≠ "")

/-- The `full_key` helper (bootstrap.py lines 177-178). -/
def fullKeyOf (env : Env) (key : String) : String :=
  let np := normPfxOf env
  if PyStr.startsWith key np || np = "" then key else np ++ PyStr.lstripCh key '/'

/-- Python `p.replace("/data", "/runpod-volume", 1)` under the guard
`p.startswith("/data/")`, where the first occurrence is the 5-character
leading `/data`. -/
def replaceDataVolume (p : String) : String := "/runpod-volume" ++ PyStr.dropChars p 5

/-- Local target directory (bootstrap.py lines 140-150). -/
def localPathOf (env : Env) (runpodVolume : Bool) : String :=
  let dflt := if runpodVolume then "/runpod-volume/models/wan2.2-i2v-a14b"
              else "/data/models/wan2.2-i2v-a14b"
  match env "MODEL_LOCAL_PATH" with
  | some p =>
    if p = "" then dflt
    else if PyStr.startsWith p "/data/" && runpodVolume then replaceDataVolume p else p
  | none => dflt

/-- The required-keys HEAD loop (bootstrap.py lines 180-191): collect 404 keys
in order, re-raise any other `ClientError` immediately. -/
def headCheck (head : String → HeadRes) : List String → Except SyncErr (List String)
  | [] => .ok []
  | k :: rest =>
    match head k with
    | .ok => headCheck head rest
    | .notFound => (headCheck head rest).map (fun m => k :: m)
    | .failure e => .error (.headFailure e)

/-- The sequential download loop (bootstrap.py lines 238-244): skip a key when
skip-existing is on and the target file exists, otherwise download; the first
failing download aborts the sync. -/
def downloadAll (w : S3World) (local_path : String) (skip : Bool) :
    List (String × String) → Except String Unit
  | [] => .ok ()
  | (key, rel) :: rest =>
    if skip && w.fileExists (local_path ++ "/" ++ rel) then downloadAll w local_path skip rest
    else
      match w.download key with
      | .error e => .error e
      | .ok () => downloadAll w local_path skip rest

/-- Embedding of `bootstrap.ensure_s3_model` (bootstrap.py lines 129-252).
Returns the `(key, relative path)` sync plan on success; `runpodVolume`
models `os.path.isdir("/runpod-volume")`. -/
def ensure_s3_model (env : Env) (runpodVolume : Bool) (w : S3World) :
    Except SyncErr (List (String × String)) :=
  if parse_bool (some (getenvD env "ENABLE_S3_MODEL" "1")) = false then .ok []
  else if optTruthy (env "MODEL_S3_BUCKET") = false ||
          optTruthy (env "MODEL_S3_ENDPOINT") = false then .error .configMissing
  else
    let np := normPfxOf env
    match headCheck w.head ((requiredKeysOf env).map (fullKeyOf env)) with
    | .error e => .error e
    | .ok missing =>
      if missing.isEmpty = false then .error (.missingKeys missing)
      else
        match w.listing with
        | .error e => .error (.listingFailure e)
        | .ok keys =>
          let keys_to_fetch := keys.filterMap (fun key =>
            if PyStr.endsWithCh key '/' then none
            else some (key,
              if np = "" then key else PyStr.lstripCh (PyStr.dropChars key np.length) '/'))
          if keys_to_fetch.isEmpty then .error (.noAssets np ((env "MODEL_S3_BUCKET").getD ""))
          else
            match downloadAll w (localPathOf env runpodVolume)
                (parse_bool (some (getenvD env "MODEL_SKIP_EXISTING" "1"))) keys_to_fetch with
            | .error e => .error (.downloadFailure e)
            | .ok () => .ok keys_to_fetch

/-- Concrete environment for the C7 witness: sync enabled by default, bucket
and endpoint set, a key root of `models`, no required keys. -/
def envC7w : Env := fun k =>
  if k = "MODEL_S3_BUCKET" then some "bkt"
  else if k = "MODEL_S3_ENDPOINT" then some "http://s3.local"
  else if k = "MODEL_S3_PREFIX" then some "models" else none

/-- Concrete store for the C7 witness: the listing holds only the directory
marker `models/`. -/
def worldC7w : S3World where
  head := fun _ => .ok
  listing := .ok ["models/"]
  fileExists := fun _ => false
  download := fun _ => .ok ()

/-- Benign-error classification in `launch_models` (bootstrap.py line 274):
`"already launched" in message.lower() or "already exists" in message.lower()`. -/
def benignLaunchError (message : String) : Bool :=
  PyStr.containsSub (PyStr.lower message) "already launched" ||
  PyStr.containsSub (PyStr.lower message) "already exists"

/-- Python `launch_kwargs["model_name"] = fallback_model` (bootstrap.py line
282): overwrite one key of the kwargs dictionary. -/
def setKw (kw : List (String × Option LVal)) (k : String) (v : LVal) :
    List (String × Option LVal) :=
  kw.map (fun p => if p.1 = k then (p.1, some v) else p)

/-- Ways `launch_models` can raise: a failure propagated from
`ensure_s3_model`, a `wait_for_server` timeout, or the exception escaping the
launch try/except. -/
inductive LaunchFail where
  | s3 (e : SyncErr)
  | startupTimeout (e : String)
  | launchRaise (msg : String)
  deriving DecidableEq

/-- Observable outcome of `launch_models`: the kwargs dictionaries passed to
`client.launch_model`, in order, and whether the call returned or raised. -/
structure LaunchRun where
  attempts : List (List (String × Option LVal))
  result : Except LaunchFail Unit

/-- Embedding of `bootstrap.launch_models` (bootstrap.py lines 255-286).
`waitRes` is the outcome of the `wait_for_server` poll and `try_launch` the
outcome the daemon client gives each `launch_model` call (its returned uid or
the text of the exception it raised).  The source compares the fallback name
against `launch_kwargs["model_name"]`, which by construction of
`build_launch_kwargs` is `VIDEO_MODEL_NAME` or its default. -/
def launch_models (env : Env) (runpodVolume : Bool) (w : S3World)
    (waitRes : Except String Unit)
    (try_launch : List (String × Option LVal) → Except String String) : LaunchRun :=
  match ensure_s3_model env runpodVolume w with
  | .error e => ⟨[], .error (.s3 e)⟩
  | .ok _ =>
    match waitRes with
    | .error e => ⟨[], .error (.startupTimeout e)⟩
    | .ok () =>
      let launch_kwargs := build_launch_kwargs env
      let fallback_model := env "VIDEO_FALLBACK_MODEL"
      match try_launch launch_kwargs with
      | .ok _uid => ⟨[launch_kwargs], .ok ()⟩
      | .error message =>
        if benignLaunchError message then ⟨[launch_kwargs], .ok ()⟩
        else if optTruthy fallback_model &&
            (fallback_model.getD "" != getenvD env "VIDEO_MODEL_NAME" defaultModelName) then
          let kw2 := setKw launch_kwargs "model_name" (.str (fallback_model.getD ""))
          match try_launch kw2 with
          | .ok _uid => ⟨[launch_kwargs, kw2], .ok ()⟩
          | .error e2 => ⟨[launch_kwargs, kw2], .error (.launchRaise e2)⟩
        else ⟨[launch_kwargs], .error (.launchRaise message)⟩

/-- S3 world for launcher witnesses (sync is disabled by the environment, so
none of these oracles is consulted). -/
def worldOffw : S3World where
  head := fun _ => .ok
  listing := .ok []
  fileExists := fun _ => false
  download := fun _ => .ok ()

/-- Environment for the C5 witness: sync disabled, everything else default. -/
def envC5w : Env := fun k => if k = "ENABLE_S3_MODEL" then some "0" else none

/-- Environment for the C6 witness: sync disabled and a fallback model name
that differs from the primary default. -/
def envC6w : Env := fun k =>
  if k = "ENABLE_S3_MODEL" then some "0"
  else if k = "VIDEO_FALLBACK_MODEL" then some "wan-fb" else none

/-- Launch oracle for the C6 witness: the primary name fails with an unrelated
error, the fallback name succeeds. -/
def tryLaunchC6 : List (String × Option LVal) → Except String String :=
  fun kw => if getKw kw "model_name" = some (.str "wan-fb") then .ok "uid-2"
            else .error "CUDA out of memory"

/-- Shared mutable handler state of `rp_handler.py` (lines 23-26): the
`_initialized` flag, whether `_server_proc` has been assigned, and the
`_xinference_endpoint` global. -/
structure RTState where
  initialized : Bool
  serverStarted : Bool
  endpoint : Option String
  deriving DecidableEq

/-- Outcomes the outside world gives each step of the boot sequence:
`configure_xinference_home` (its home path or an OS error),
the `start_server` spawn, the `wait_for_server` poll, and the
`launch_models` call as `_init_runtime` invokes them. -/
structure BootOracle where
  configureRes : Except String String
  startRes : Except String Unit
  waitRes : Except String Unit
  launchRes : Except String Unit

/-- A boot oracle in which every step succeeds. -/
def BootOracle.allOk (o : BootOracle) : Prop :=
  (∃ s, o.configureRes = .ok s) ∧ o.startRes = .ok () ∧ o.waitRes = .ok () ∧
    o.launchRes = .ok ()

/-- The externally visible actions of `_init_runtime`, in source order. -/
inductive BootStep where
  | configure
  | startServer
  | waitServer
  | launchModel
  | setInitialized
  deriving DecidableEq

/-- The endpoint resolved at rp_handler.py lines 41-43. -/
def endpointOf (env : Env) : String :=
  getenvD env "XINFERENCE_ENDPOINT" ("http://127.0.0.1:" ++ getenvD env "XINFERENCE_PORT" "9997")

/-- Sequential embedding of `rp_handler._init_runtime` (rp_handler.py lines
29-66): the double-checked flag test, the home/endpoint configuration, then
the boot sequence wrapped in try/except, whose exception is re-raised as
`"handler init failed: ..."`; `_initialized` is set only after every step
succeeded.  The result carries the new state, the return-or-raise outcome,
and the list of boot actions that were executed.  (The mutex is invisible in
a single-thread run; the interleaving machine below models its actual,
mis-indented scope.) -/
def init_runtime (env : Env) (o : BootOracle) (st : RTState) :
    RTState × Except String Unit × List BootStep :=
  if st.initialized then (st, .ok (), [])
  else
    match o.configureRes with
    | .error e => (st, .error e, [.configure])
    | .ok _home =>
      let st1 : RTState := {st with endpoint := some (endpointOf env)}
      match o.startRes with
      | .error e => (st1, .error ("handler init failed: " ++ e), [.configure, .startServer])
      | .ok () =>
        let st2 : RTState := {st1 with serverStarted := true}
        match o.waitRes with
        | .error e =>
          (st2, .error ("handler init failed: " ++ e), [.configure, .startServer, .waitServer])
        | .ok () =>
          if parse_bool (some (getenvD env "AUTO_LAUNCH_MODEL" "1")) then
            match o.launchRes with
            | .error e =>
              (st2, .error ("handler init failed: " ++ e),
                [.configure, .startServer, .waitServer, .launchModel])
            | .ok () =>
              ({st2 with initialized := true}, .ok (),
                [.configure, .startServer, .waitServer, .launchModel, .setInitialized])
          else
            ({st2 with initialized := true}, .ok (),
              [.configure, .startServer, .waitServer, .setInitialized])

/-- The full boot trace `_init_runtime` performs from an uninitialized state
when no step fails. -/
def fullBootTrace (env : Env) : List BootStep :=
  if parse_bool (some (getenvD env "AUTO_LAUNCH_MODEL" "1")) then
    [.configure, .startServer, .waitServer, .launchModel, .setInitialized]
  else
    [.configure, .startServer, .waitServer, .setInitialized]

/-- Program-counter positions of one job thread executing `_init_runtime`,
at the source's statement boundaries.  Crucially, the `with _init_lock:`
block of rp_handler.py covers only lines 35-44 (the second flag check and
the home/endpoint configuration); the `try:` block holding `start_server`,
`wait_for_server`, `launch_models` and the flag assignment (lines 46-58) is
dedented OUTSIDE the `with`, so the lock is released at `release` before any
boot work happens.  `launchMdl` is present because `AUTO_LAUNCH_MODEL`
defaults to `"1"`. -/
inductive Pc where
  | checkFlag
  | acquire
  | checkFlag2
  | cfgHome
  | release
  | startSrv
  | waitSrv
  | launchMdl
  | setFlag
  | done
  deriving DecidableEq

/-- Global state of the interleaving machine: the shared `_initialized` flag,
the mutex, per-action execution counters, and each thread's position. -/
structure MState where
  initialized : Bool
  lockHeld : Bool
  cfgCount : Nat
  startCount : Nat
  waitCount : Nat
  launchCount : Nat
  pcs : List Pc
  deriving DecidableEq

/-- Move thread `t` to position `pc`. -/
def setPc (s : MState) (t : Nat) (pc : Pc) : MState := {s with pcs := s.pcs.set t pc}

/-- One atomic step of thread `t` (no-op when the thread is finished, blocked
on the held lock, or does not exist). -/
def stepAt (s : MState) (t : Nat) : MState :=
  match s.pcs.getD t .done with
  | .checkFlag => if s.initialized then setPc s t .done else setPc s t .acquire
  | .acquire => if s.lockHeld then s else setPc {s with lockHeld := true} t .checkFlag2
  | .checkFlag2 =>
    if s.initialized then setPc {s with lockHeld := false} t .done else setPc s t .cfgHome
  | .cfgHome => setPc {s with cfgCount := s.cfgCount + 1} t .release
  | .release => setPc {s with lockHeld := false} t .startSrv
  | .startSrv => setPc {s with startCount := s.startCount + 1} t .waitSrv
  | .waitSrv => setPc {s with waitCount := s.waitCount + 1} t .launchMdl
  | .launchMdl => setPc {s with launchCount := s.launchCount + 1} t .setFlag
  | .setFlag => setPc {s with initialized := true} t .done
  | .done => s

/-- Run the machine under an explicit interleaving schedule. -/
def runSched (sched : List Nat) (s : MState) : MState := sched.foldl stepAt s

/-- N fresh job threads at the top of `_init_runtime`, worker uninitialized. -/
def mInit (n : Nat) : MState := ⟨false, false, 0, 0, 0, 0, List.replicate n .checkFlag⟩

/-- Python values as the handler manipulates them: job dictionaries may carry
values of any runtime type, which matters because `handler` calls `.get` and
`len` on them without a surrounding try/except. -/
inductive PyVal where
  | pynone
  | pybool (b : Bool)
  | pyint (n : Int)
  | pystr (s : String)
  | pybytes (s : String)
  | pydict (entries : List (String × PyVal))
  | pylist (xs : List PyVal)

/-- Python truthiness. -/
def PyVal.truthy : PyVal → Bool
  | .pynone => false
  | .pybool b => b
  | .pyint n => n != 0
  | .pystr s => s ≠ ""
  | .pybytes s => s ≠ ""
  | .pydict es => !es.isEmpty
  | .pylist xs => !xs.isEmpty

/-- Python `d.get(k, dflt)` on a dict value (job dictionaries in the claims
have distinct keys, so association-list lookup agrees with dict lookup). -/
def pyDictGet (entries : List (String × PyVal)) (k : String) (dflt : PyVal) : PyVal :=
  (entries.lookup k).getD dflt

/-- Exceptions `handler` can let escape to its caller (no `except` covers the
raising line). -/
inductive PyExc where
  | attributeError (m : String)
  | typeError (m : String)
  | valueError (m : String)

/-- Python `len(v)`: defined for sized values, a `TypeError` otherwise. -/
def pyLen : PyVal → Except PyExc Int
  | .pystr s => .ok s.length
  | .pybytes s => .ok s.length
  | .pydict es => .ok es.length
  | .pylist xs => .ok xs.length
  | _ => .error (.typeError "object has no len")

/-- An HTTP response from the daemon as `_call_xinference` observes it:
status code, body text, and the parsed JSON body when `resp.json()` succeeds
(`none` models a body that is not valid JSON, where `resp.json()` raises). -/
structure HttpResp where
  status : Nat
  text : String
  jsonBody : Option PyVal

/-- The request `_call_xinference` posts: the multipart image-generation form
(rp_handler.py lines 80-90, prompt included only when truthy) or the JSON
text-generation payload (lines 91-97, prompt defaulted to `""` when falsy). -/
inductive InferRequest where
  | imageGen (model : String) (prompt : Option PyVal) (image : String) (timeout : Int)
  | textGen (model : String) (prompt : PyVal) (timeout : Int)

/-- Embedding of `rp_handler._call_xinference` (rp_handler.py lines 76-105).
`post` is the daemon oracle: the response, or the message of a transport
exception.  A status of 400 or more raises; a body that fails JSON parsing is
returned as `{"raw": resp.text}` — it is NOT an error. -/
def call_xinference (endpoint : Option String) (post : InferRequest → Except String HttpResp)
    (uid : String) (prompt : PyVal) (image_bytes : Option String) (timeout : Int) :
    Except String PyVal :=
  if optTruthy endpoint = false then .error "xinference endpoint not initialized"
  else
    let req : InferRequest :=
      match image_bytes with
      | some img =>
        if img ≠ "" then
          .imageGen uid (if prompt.truthy then some prompt else none) img timeout
        else .textGen uid (if prompt.truthy then prompt else .pystr "") timeout
      | none => .textGen uid (if prompt.truthy then prompt else .pystr "") timeout
    match post req with
    | .error e => .error e
    | .ok resp =>
      if 400 ≤ resp.status then
        .error ("xinference error " ++ toString resp.status ++ ": " ++ resp.text)
      else
        match resp.jsonBody with
        | some v => .ok v
        | none => .ok (.pydict [("raw", .pystr resp.text)])

/-- Embedding of `rp_handler._ensure_model_uid` (rp_handler.py lines 69-73):
`uid = LAUNCHED_MODEL_UID or os.getenv("VIDEO_MODEL_UID")`, raising
`ValueError("model not ready")` when the result is falsy. -/
def ensure_model_uid (launched : Option String) (env : Env) : Except String String :=
  let uid := if optTruthy launched then launched else env "VIDEO_MODEL_UID"
  if optTruthy uid then .ok (uid.getD "") else .error "model not ready"

/-- Modelled from the spec: `MODEL_READY`, imported by `rp_handler.py` from
`bootstrap` but absent from the sources.  Per the spec the returned `ready`
flag "reflects current initialization state", so it is the runtime state's
initialized flag. -/
def MODEL_READY (st : RTState) : Bool := st.initialized

/-- Everything outside the handler's own control flow: the environment, the
boot oracle consumed by `_init_runtime`, and the collaborators.
`launchedUid` is modelled from the spec: `LAUNCHED_MODEL_UID`, the launched
model identifier held in the runtime state, absent from the sources.
`fetchUrl` and `decodeB64` are modelled from the spec: the image resolvers
`_fetch_image_from_url` / `_decode_base64_image`, absent from the sources;
they yield image bytes or raise, and `handler` wraps them in try/except. -/
structure HandlerEnv where
  env : Env
  boot : BootOracle
  launchedUid : Option String
  fetchUrl : PyVal → Except String String
  decodeB64 : PyVal → Except String String
  post : InferRequest → Except String HttpResp

/-- Embedding of `rp_handler.handler` (rp_handler.py lines 108-176).  Returns
the updated runtime state and either the returned dictionary (`.ok`) or the
exception that escapes to the caller (`.error`).  Uncaught raising sites are
modelled faithfully: `job_input.get(...)` on a non-dict truthy `input` value
(line 127), `int(os.getenv("API_HTTP_TIMEOUT", "600"))` (line 157), and
`len(prompt or "")` evaluated while building the `dbg_log` arguments
(line 163). -/
def handler (h : HandlerEnv) (st : RTState) (job : PyVal) : RTState × Except PyExc PyVal :=
  match init_runtime h.env h.boot st with
  | (st1, .error e, _) =>
    (st1, .ok (.pydict [("error", .pystr "init_failed"), ("message", .pystr e),
      ("ready", .pybool (MODEL_READY st1))]))
  | (st1, .ok (), _) =>
    match job with
    | .pydict jentries =>
      let inputVal := pyDictGet jentries "input" .pynone
      let job_input := if inputVal.truthy then inputVal else .pydict []
      match job_input with
      | .pydict jes =>
        let prompt := pyDictGet jes "prompt" (.pystr "")
        let image_url := pyDictGet jes "image_url" .pynone
        let image_b64 := pyDictGet jes "image_base64" .pynone
        let imageRes : Except String (Option String) :=
          if image_url.truthy then (h.fetchUrl image_url).map some
          else if image_b64.truthy then (h.decodeB64 image_b64).map some
          else .ok none
        match imageRes with
        | .error e =>
          (st1, .ok (.pydict [("error", .pystr "input_error"), ("message", .pystr e),
            ("ready", .pybool (MODEL_READY st1))]))
        | .ok image_bytes =>
          match ensure_model_uid h.launchedUid h.env with
          | .error e =>
            (st1, .ok (.pydict [("error", .pystr "model_not_ready"), ("message", .pystr e),
              ("ready", .pybool (MODEL_READY st1))]))
          | .ok uid =>
            match PyStr.intParse (getenvD h.env "API_HTTP_TIMEOUT" "600") with
            | none => (st1, .error (.valueError "invalid literal for int with base 10"))
            | some api_timeout =>
              match pyLen (if prompt.truthy then prompt else .pystr "") with
              | .error exc => (st1, .error exc)
              | .ok _ =>
                match call_xinference st1.endpoint h.post uid prompt image_bytes api_timeout with
                | .ok result =>
                  (st1, .ok (.pydict [("output", result), ("model_uid", .pystr uid),
                    ("ready", .pybool (MODEL_READY st1))]))
                | .error e =>
                  (st1, .ok (.pydict [("error", .pystr "inference_error"), ("message", .pystr e),
                    ("ready", .pybool (MODEL_READY st1))]))
      | _ => (st1, .error (.attributeError "input value has no attribute get"))
    | _ => (st1, .error (.attributeError "job has no attribute get"))

/-- Boot oracle for the C2 witness: the daemon spawn fails. -/
def bootFailW : BootOracle := ⟨.ok "/data", .error "spawn failed", .ok (), .ok ()⟩

/-- Boot oracle for the C2 witness retry: every step succeeds. -/
def bootOkW : BootOracle := ⟨.ok "/data", .ok (), .ok (), .ok ()⟩

/-- Empty environment for the C2 witness. -/
def envEmptyW : Env := fun _ => none

/-- Handler collaborators for the C2 witness. -/
def henvC2w : HandlerEnv :=
  ⟨envEmptyW, bootFailW, none, fun _ => .ok "IMG", fun _ => .ok "IMG",
    fun _ => .error "daemon down"⟩

/-- Healthy collaborators for the C3 counterexample. -/
def henvC3w : HandlerEnv :=
  ⟨envEmptyW, bootOkW, some "uid-1", fun _ => .ok "IMG", fun _ => .ok "IMG",
    fun _ => .ok ⟨200, "body", some (.pydict [])⟩⟩

/-- A handler outcome that is a returned dictionary, never a raised
exception, and whose error form carries the `ready` flag computed from the
final runtime state. -/
def structuredOutcome : RTState × Except PyExc PyVal → Prop
  | (st1, .ok (.pydict d)) =>
    (d.lookup "error").isSome = true → d.lookup "ready" = some (.pybool (MODEL_READY st1))
  | _ => False

/-- Collaborators for the C8 counterexample: healthy boot, a launched model,
and a daemon that answers 200 with a body that is not valid JSON. -/
def henvC8w : HandlerEnv :=
  ⟨envEmptyW, bootOkW, some "m1", fun _ => .ok "IMG", fun _ => .ok "IMG",
    fun _ => .ok ⟨200, "oops", none⟩⟩

/-- Collaborators for the amended C8 witness: daemon answers 500 with a
non-JSON body. -/
def henvC8w2 : HandlerEnv :=
  ⟨envEmptyW, bootOkW, some "m1", fun _ => .ok "IMG", fun _ => .ok "IMG",
    fun _ => .ok ⟨500, "boom", none⟩⟩

/-- Collaborators for the C9 witness: healthy boot, launched model `uid-9`, a
fetchable image, and a daemon answering 200 with a JSON body. -/
def henvC9w : HandlerEnv :=
  ⟨envEmptyW, bootOkW, some "uid-9", fun _ => .ok "IMGBYTES", fun _ => .ok "IMGBYTES",
    fun _ => .ok ⟨200, "body", some (.pydict [("url", .pystr "v.mp4")])⟩⟩

/-- Collaborators for the C10 witness: no launched id, `VIDEO_MODEL_UID` set
in the environment, healthy daemon. -/
def henvC10w : HandlerEnv :=
  ⟨(fun k => if k = "VIDEO_MODEL_UID" then some "env-uid" else none), bootOkW, none,
    fun _ => .ok "IMG", fun _ => .ok "IMG", fun _ => .ok ⟨200, "body", some (.pydict [])⟩⟩

theorem strFieldVal_eq_none (env : Env) (k : String) :
    strFieldVal env k = none ↔ env k = none ∨ env k = some "" := by
  unfold strFieldVal
  cases h : env k with
  | none => simp
  | some v =>
    by_cases hv : v = ""
    · subst hv; simp
    · simp [hv]

theorem strFieldVal_eq_some (env : Env) (k s : String) :
    strFieldVal env k = some (.str s) ↔ env k = some s ∧ s ≠ "" := by
  unfold strFieldVal
  cases h : env k with
  | none => simp
  | some v =>
    by_cases hv : v = ""
    · subst hv
      simp only [if_true, reduceCtorEq, false_iff, not_and, Option.some.injEq]
      intro h1
      rw [← h1]
      simp
    · simp only [hv, if_false, Option.some.injEq, LVal.str.injEq]
      constructor
      · intro h1; exact ⟨h1 ▸ rfl, h1 ▸ hv⟩
      · intro h1; exact (Option.some.injEq _ _ ▸ h1.1 : v = s)

theorem boolFieldVal_eq_none (env : Env) (k : String) :
    boolFieldVal env k = none ↔ env k = none := by
  unfold boolFieldVal
  cases h : env k <;> simp

theorem boolFieldVal_eq_some (env : Env) (k s : String) (h : env k = some s) :
    boolFieldVal env k = some (.bool (parse_bool (some s))) := by
  unfold boolFieldVal
  rw [h]
  rfl

theorem parse_bool_char (s : String) :
    parse_bool (some s) = true ↔ PyStr.lower s ∈ truthySet := by
  unfold parse_bool pyStrOfOpt
  exact List.elem_iff

/-- C4: for every environment, `build_launch_kwargs` omits an optional string
field (model_engine, model_format, model_uid, model_path, size_in_billions,
quantization) iff its source variable is absent or empty, and includes it with
the variable value otherwise; it omits an optional boolean field
(layerwise_cast, cpu_offload, group_offload, use_stream) iff its source
variable is absent, and includes `parse_bool` of the raw value whenever the
variable is present (so an explicitly falsy value is included as `false`);
boolean parsing is case-insensitive over exactly
{"1", "true", "t", "yes", "y", "on"}.  The function is total (it is a Lean
`def`), matching "always succeeds". -/
theorem build_launch_kwargs_omission_policy (env : Env) :
    (getKw (build_launch_kwargs env) "model_engine" = none ↔
      env "VIDEO_MODEL_ENGINE" = none ∨ env "VIDEO_MODEL_ENGINE" = some "") ∧
    (∀ s, getKw (build_launch_kwargs env) "model_engine" = some (.str s) ↔
      env "VIDEO_MODEL_ENGINE" = some s ∧ s ≠ "") ∧
    (getKw (build_launch_kwargs env) "model_format" = none ↔
      env "VIDEO_MODEL_FORMAT" = none ∨ env "VIDEO_MODEL_FORMAT" = some "") ∧
    (∀ s, getKw (build_launch_kwargs env) "model_format" = some (.str s) ↔
      env "VIDEO_MODEL_FORMAT" = some s ∧ s ≠ "") ∧
    (getKw (build_launch_kwargs env) "model_uid" = none ↔
      env "VIDEO_MODEL_UID" = none ∨ env "VIDEO_MODEL_UID" = some "") ∧
    (∀ s, getKw (build_launch_kwargs env) "model_uid" = some (.str s) ↔
      env "VIDEO_MODEL_UID" = some s ∧ s ≠ "") ∧
    (getKw (build_launch_kwargs env) "model_path" = none ↔
      env "VIDEO_MODEL_PATH" = none ∨ env "VIDEO_MODEL_PATH" = some "") ∧
    (∀ s, getKw (build_launch_kwargs env) "model_path" = some (.str s) ↔
      env "VIDEO_MODEL_PATH" = some s ∧ s ≠ "") ∧
    (getKw (build_launch_kwargs env) "size_in_billions" = none ↔
      env "VIDEO_SIZE_IN_BILLIONS" = none ∨ env "VIDEO_SIZE_IN_BILLIONS" = some "") ∧
    (∀ s, getKw (build_launch_kwargs env) "size_in_billions" = some (.str s) ↔
      env "VIDEO_SIZE_IN_BILLIONS" = some s ∧ s ≠ "") ∧
    (getKw (build_launch_kwargs env) "quantization" = none ↔
      env "VIDEO_QUANTIZATION" = none ∨ env "VIDEO_QUANTIZATION" = some "") ∧
    (∀ s, getKw (build_launch_kwargs env) "quantization" = some (.str s) ↔
      env "VIDEO_QUANTIZATION" = some s ∧ s ≠ "") ∧
    (getKw (build_launch_kwargs env) "layerwise_cast" = none ↔
      env "VIDEO_LAYERWISE_CAST" = none) ∧
    (∀ s, env "VIDEO_LAYERWISE_CAST" = some s →
      getKw (build_launch_kwargs env) "layerwise_cast" = some (.bool (parse_bool (some s)))) ∧
    (getKw (build_launch_kwargs env) "cpu_offload" = none ↔
      env "VIDEO_CPU_OFFLOAD" = none) ∧
    (∀ s, env "VIDEO_CPU_OFFLOAD" = some s →
      getKw (build_launch_kwargs env) "cpu_offload" = some (.bool (parse_bool (some s)))) ∧
    (getKw (build_launch_kwargs env) "group_offload" = none ↔
      env "VIDEO_GROUP_OFFLOAD" = none) ∧
    (∀ s, env "VIDEO_GROUP_OFFLOAD" = some s →
      getKw (build_launch_kwargs env) "group_offload" = some (.bool (parse_bool (some s)))) ∧
    (getKw (build_launch_kwargs env) "use_stream" = none ↔
      env "VIDEO_USE_STREAM" = none) ∧
    (∀ s, env "VIDEO_USE_STREAM" = some s →
      getKw (build_launch_kwargs env) "use_stream" = some (.bool (parse_bool (some s)))) ∧
    (∀ s, parse_bool (some s) = true ↔ PyStr.lower s ∈ truthySet) := by
  refine ⟨?_, ?_, ?_, ?_, ?_, ?_, ?_, ?_, ?_, ?_, ?_, ?_, ?_, ?_, ?_, ?_, ?_, ?_, ?_, ?_, ?_⟩
  · exact strFieldVal_eq_none env "VIDEO_MODEL_ENGINE"
  · exact fun s => strFieldVal_eq_some env "VIDEO_MODEL_ENGINE" s
  · exact strFieldVal_eq_none env "VIDEO_MODEL_FORMAT"
  · exact fun s => strFieldVal_eq_some env "VIDEO_MODEL_FORMAT" s
  · exact strFieldVal_eq_none env "VIDEO_MODEL_UID"
  · exact fun s => strFieldVal_eq_some env "VIDEO_MODEL_UID" s
  · exact strFieldVal_eq_none env "VIDEO_MODEL_PATH"
  · exact fun s => strFieldVal_eq_some env "VIDEO_MODEL_PATH" s
  · exact strFieldVal_eq_none env "VIDEO_SIZE_IN_BILLIONS"
  · exact fun s => strFieldVal_eq_some env "VIDEO_SIZE_IN_BILLIONS" s
  · exact strFieldVal_eq_none env "VIDEO_QUANTIZATION"
  · exact fun s => strFieldVal_eq_some env "VIDEO_QUANTIZATION" s
  · exact boolFieldVal_eq_none env "VIDEO_LAYERWISE_CAST"
  · exact fun s h => boolFieldVal_eq_some env "VIDEO_LAYERWISE_CAST" s h
  · exact boolFieldVal_eq_none env "VIDEO_CPU_OFFLOAD"
  · exact fun s h => boolFieldVal_eq_some env "VIDEO_CPU_OFFLOAD" s h
  · exact boolFieldVal_eq_none env "VIDEO_GROUP_OFFLOAD"
  · exact fun s h => boolFieldVal_eq_some env "VIDEO_GROUP_OFFLOAD" s h
  · exact boolFieldVal_eq_none env "VIDEO_USE_STREAM"
  · exact fun s h => boolFieldVal_eq_some env "VIDEO_USE_STREAM" s h
  · exact fun s => parse_bool_char s

/-- Witness for C4 at `envC4w`. -/
theorem build_launch_kwargs_omission_policy_witness :
    getKw (build_launch_kwargs envC4w) "cpu_offload" = some (.bool false) ∧
    getKw (build_launch_kwargs envC4w) "model_engine" = none ∧
    getKw (build_launch_kwargs envC4w) "quantization" = some (.str "q4") := by
  obtain ⟨hme, -, -, -, -, -, -, -, -, -, -, hq, -, -, -, hcpu, -, -, -, -, -⟩ :=
    build_launch_kwargs_omission_policy envC4w
  refine ⟨?_, ?_, ?_⟩
  · have h := hcpu "0" (by decide)
    rw [h]
    rfl
  · exact hme.mpr (Or.inr (by decide))
  · exact (hq "q4").mpr (by decide)

theorem headCheck_all_ok (head : String → HeadRes) (l : List String)
    (h : ∀ k ∈ l, head k = .ok) : headCheck head l = .ok [] := by
  induction l with
  | nil => rfl
  | cons k rest ih =>
    unfold headCheck
    rw [h k (List.mem_cons_self k rest)]
    exact ih (fun x hx => h x (List.mem_cons_of_mem k hx))

theorem filterMap_markers_empty {β : Type} (keys : List String)
    (g : String → β)
    (hEmpty : keys.filter (fun k => PyStr.endsWithCh k '/' = false) = []) :
    keys.filterMap (fun key => if PyStr.endsWithCh key '/' then none else some (g key)) = [] := by
  induction keys with
  | nil => rfl
  | cons k rest ih =>
    by_cases hk : PyStr.endsWithCh k '/' = true
    · rw [List.filterMap_cons, if_pos hk]
      apply ih
      rw [List.filter_cons] at hEmpty
      simpa [hk] using hEmpty
    · exfalso
      have hk2 : PyStr.endsWithCh k '/' = false := eq_false_of_ne_true hk
      rw [List.filter_cons] at hEmpty
      simp [hk2] at hEmpty

/-- C7: with sync enabled, bucket and endpoint present and the required-key
checks passing, a successful paginated listing whose keys are all
directory markers (or which is empty) makes `ensure_s3_model` fail with the
no-assets error; it never returns successfully. -/
theorem ensure_s3_model_empty_listing_fails (env : Env) (rv : Bool) (w : S3World)
    (keys : List String)
    (hEnabled : parse_bool (some (getenvD env "ENABLE_S3_MODEL" "1")) = true)
    (hBucket : optTruthy (env "MODEL_S3_BUCKET") = true)
    (hEndpoint : optTruthy (env "MODEL_S3_ENDPOINT") = true)
    (hHead : ∀ k ∈ requiredKeysOf env, w.head (fullKeyOf env k) = .ok)
    (hList : w.listing = .ok keys)
    (hEmpty : keys.filter (fun k => PyStr.endsWithCh k '/' = false) = []) :
    ensure_s3_model env rv w =
      .error (.noAssets (normPfxOf env) ((env "MODEL_S3_BUCKET").getD "")) := by
  have hhc : headCheck w.head ((requiredKeysOf env).map (fullKeyOf env)) = .ok [] := by
    apply headCheck_all_ok
    intro k hk
    obtain ⟨k0, hk0, rfl⟩ := List.mem_map.mp hk
    exact hHead k0 hk0
  have hfm := filterMap_markers_empty keys
    (fun key => (key, if normPfxOf env = "" then key
      else PyStr.lstripCh (PyStr.dropChars key (normPfxOf env).length) '/')) hEmpty
  unfold ensure_s3_model
  rw [hEnabled, hBucket, hEndpoint, hhc, hList]
  simp only [Bool.false_eq_true, if_false, Bool.true_eq_false, Bool.or_self,
    List.isEmpty_nil, hfm]
  rfl

/-- Witness for C7 at `envC7w` and `worldC7w`. -/
theorem ensure_s3_model_empty_listing_fails_witness :
    ensure_s3_model envC7w true worldC7w = .error (.noAssets "models/" "bkt") := by
  have h := ensure_s3_model_empty_listing_fails envC7w true worldC7w ["models/"]
    (by decide) (by decide) (by decide)
    (fun k hk => absurd (by exact hk : k ∈ requiredKeysOf envC7w)
      (by rw [show requiredKeysOf envC7w = [] from rfl]; exact List.not_mem_nil k))
    rfl (by decide)
  rw [h]
  rfl

/-- C5: if the primary launch raises with a message containing
"already launched" or "already exists" case-insensitively, `launch_models`
returns normally, with no fallback attempt. -/
theorem launch_models_benign_error_is_success (env : Env) (rv : Bool) (w : S3World)
    (waitRes : Except String Unit)
    (try_launch : List (String × Option LVal) → Except String String)
    (plan : List (String × String)) (message : String)
    (hs3 : ensure_s3_model env rv w = .ok plan)
    (hwait : waitRes = .ok ())
    (hfail : try_launch (build_launch_kwargs env) = .error message)
    (hbenign : benignLaunchError message = true) :
    launch_models env rv w waitRes try_launch = ⟨[build_launch_kwargs env], .ok ()⟩ := by
  unfold launch_models
  rw [hs3, hwait]
  simp only [hfail, hbenign, if_true]

/-- C6: on a non-benign primary failure, the fallback is attempted iff a
fallback name is configured (set and non-empty) and differs from the primary
model name; exactly one fallback attempt is then made with `model_name`
substituted, propagating whatever the fallback call produces; otherwise the
original error propagates unchanged. -/
theorem launch_models_fallback_policy (env : Env) (rv : Bool) (w : S3World)
    (waitRes : Except String Unit)
    (try_launch : List (String × Option LVal) → Except String String)
    (plan : List (String × String)) (message : String)
    (hs3 : ensure_s3_model env rv w = .ok plan)
    (hwait : waitRes = .ok ())
    (hfail : try_launch (build_launch_kwargs env) = .error message)
    (hnotbenign : benignLaunchError message = false) :
    ((optTruthy (env "VIDEO_FALLBACK_MODEL") &&
        ((env "VIDEO_FALLBACK_MODEL").getD "" !=
          getenvD env "VIDEO_MODEL_NAME" defaultModelName)) = true →
      launch_models env rv w waitRes try_launch =
        ⟨[build_launch_kwargs env,
          setKw (build_launch_kwargs env) "model_name"
            (.str ((env "VIDEO_FALLBACK_MODEL").getD ""))],
          match try_launch (setKw (build_launch_kwargs env) "model_name"
              (.str ((env "VIDEO_FALLBACK_MODEL").getD ""))) with
          | .ok _ => .ok ()
          | .error e2 => .error (.launchRaise e2)⟩) ∧
    ((optTruthy (env "VIDEO_FALLBACK_MODEL") &&
        ((env "VIDEO_FALLBACK_MODEL").getD "" !=
          getenvD env "VIDEO_MODEL_NAME" defaultModelName)) = false →
      launch_models env rv w waitRes try_launch =
        ⟨[build_launch_kwargs env], .error (.launchRaise message)⟩) := by
  constructor
  · intro hcond
    unfold launch_models
    rw [hs3, hwait]
    simp only [hfail, hnotbenign, Bool.false_eq_true, if_false, hcond, if_true]
    cases try_launch (setKw (build_launch_kwargs env) "model_name"
        (.str ((env "VIDEO_FALLBACK_MODEL").getD ""))) <;> rfl
  · intro hcond
    unfold launch_models
    rw [hs3, hwait]
    simp only [hfail, hnotbenign, Bool.false_eq_true, if_false, hcond]

/-- Witness for C5: a mixed-case "already launched" failure is treated as
success with a single attempt. -/
theorem launch_models_benign_error_is_success_witness :
    launch_models envC5w false worldOffw (.ok ())
        (fun _ => .error "Model is Already LAUNCHED on this node") =
      ⟨[build_launch_kwargs envC5w], .ok ()⟩ :=
  launch_models_benign_error_is_success envC5w false worldOffw (.ok ())
    (fun _ => .error "Model is Already LAUNCHED on this node") []
    "Model is Already LAUNCHED on this node" rfl rfl rfl (by decide)

/-- Witness for C6: exactly one fallback attempt with `model_name`
substituted, whose success is returned. -/
theorem launch_models_fallback_policy_witness :
    launch_models envC6w false worldOffw (.ok ()) tryLaunchC6 =
      ⟨[build_launch_kwargs envC6w,
        setKw (build_launch_kwargs envC6w) "model_name" (.str "wan-fb")], .ok ()⟩ := by
  have h := (launch_models_fallback_policy envC6w false worldOffw (.ok ()) tryLaunchC6 []
    "CUDA out of memory" rfl rfl rfl (by decide)).1 (by decide)
  rw [h]
  rfl

theorem init_runtime_error_not_initialized (env : Env) (o : BootOracle) (st : RTState)
    (e : String) (h0 : st.initialized = false)
    (h : (init_runtime env o st).2.1 = .error e) :
    (init_runtime env o st).1.initialized = false := by
  obtain ⟨cfg, srt, wt, ln⟩ := o
  cases cfg <;> cases srt <;> cases wt <;> cases ln <;>
    by_cases ha : parse_bool (some (getenvD env "AUTO_LAUNCH_MODEL" "1")) = true <;>
    simp_all [init_runtime]

theorem init_runtime_allOk_full (env : Env) (o : BootOracle) (st : RTState)
    (h0 : st.initialized = false) (hok : o.allOk) :
    init_runtime env o st =
      (⟨true, true, some (endpointOf env)⟩, .ok (), fullBootTrace env) := by
  obtain ⟨cfg, srt, wt, ln⟩ := o
  obtain ⟨⟨home, hc⟩, hs, hw, hl⟩ := hok
  cases cfg <;> cases srt <;> cases wt <;> cases ln <;>
    by_cases ha : parse_bool (some (getenvD env "AUTO_LAUNCH_MODEL" "1")) = true <;>
    simp_all [init_runtime, fullBootTrace]

/-- C1 (refuting evidence): under two concurrent first jobs there is a real
interleaving in which the full boot sequence executes twice.  Thread 0 runs
up to the end of the `with` block (releasing the lock after configuring),
thread 1 then acquires the lock, passes the second flag check (the flag is
still unset because thread 0 has not finished booting), and runs to
completion; thread 0 then resumes and boots again.  Both threads finish with
a consistent view, but `start_server`, `wait_for_server` and `launch_models`
each ran twice — contradicting the claimed mutex-serialized exactly-once
boot, and contradicting the source's own comment (rp_handler.py line 22). -/
theorem init_runtime_boot_runs_twice_under_schedule :
    (runSched [0, 0, 0, 0, 0, 1, 1, 1, 1, 1, 1, 1, 1, 1, 0, 0, 0, 0] (mInit 2)).startCount = 2 ∧
    (runSched [0, 0, 0, 0, 0, 1, 1, 1, 1, 1, 1, 1, 1, 1, 0, 0, 0, 0] (mInit 2)).waitCount = 2 ∧
    (runSched [0, 0, 0, 0, 0, 1, 1, 1, 1, 1, 1, 1, 1, 1, 0, 0, 0, 0] (mInit 2)).launchCount = 2 ∧
    (runSched [0, 0, 0, 0, 0, 1, 1, 1, 1, 1, 1, 1, 1, 1, 0, 0, 0, 0] (mInit 2)).cfgCount = 2 ∧
    (runSched [0, 0, 0, 0, 0, 1, 1, 1, 1, 1, 1, 1, 1, 1, 0, 0, 0, 0] (mInit 2)).initialized = true ∧
    (runSched [0, 0, 0, 0, 0, 1, 1, 1, 1, 1, 1, 1, 1, 1, 0, 0, 0, 0] (mInit 2)).pcs =
      [.done, .done] := by
  decide

/-- C2: if any step of the boot sequence fails, `_init_runtime` leaves the
initialized flag unset; a later call with a succeeding world re-executes the
entire boot sequence (configure, start, wait, launch, set flag) from scratch;
and the handler turns the failure into a structured `init_failed` object with
`ready = false` rather than caching it. -/
theorem init_failure_leaves_flag_unset_and_retries (env : Env) (o : BootOracle)
    (st : RTState) (e : String) (h0 : st.initialized = false)
    (herr : (init_runtime env o st).2.1 = .error e) :
    (init_runtime env o st).1.initialized = false ∧
    (∀ o2 : BootOracle, o2.allOk →
      init_runtime env o2 (init_runtime env o st).1 =
        (⟨true, true, some (endpointOf env)⟩, .ok (), fullBootTrace env)) ∧
    (∀ (h : HandlerEnv) (job : PyVal), h.env = env → h.boot = o →
      handler h st job =
        ((init_runtime env o st).1,
          .ok (.pydict [("error", .pystr "init_failed"), ("message", .pystr e),
            ("ready", .pybool false)]))) := by
  have hA := init_runtime_error_not_initialized env o st e h0 herr
  refine ⟨hA, ?_, ?_⟩
  · intro o2 hok
    exact init_runtime_allOk_full env o2 _ hA hok
  · intro h job he hb
    rcases hir : init_runtime env o st with ⟨st1, r, tr⟩
    rw [hir] at herr
    simp only at herr
    subst herr
    rw [hir] at hA
    simp only at hA
    unfold handler MODEL_READY
    rw [he, hb, hir]
    simp [hA]

/-- Witness for C2: a failed spawn leaves the flag unset, the handler returns
the `init_failed` object with `ready = false`, and a retry with a healthy
world performs the full boot trace. -/
theorem init_failure_leaves_flag_unset_and_retries_witness :
    (init_runtime envEmptyW bootFailW ⟨false, false, none⟩).1.initialized = false ∧
    handler henvC2w ⟨false, false, none⟩ (.pydict []) =
      ((init_runtime envEmptyW bootFailW ⟨false, false, none⟩).1,
        .ok (.pydict [("error", .pystr "init_failed"),
          ("message", .pystr "handler init failed: spawn failed"),
          ("ready", .pybool false)])) ∧
    init_runtime envEmptyW bootOkW (init_runtime envEmptyW bootFailW ⟨false, false, none⟩).1 =
      (⟨true, true, some "http://127.0.0.1:9997"⟩, .ok (), fullBootTrace envEmptyW) := by
  have h := init_failure_leaves_flag_unset_and_retries envEmptyW bootFailW
    ⟨false, false, none⟩ "handler init failed: spawn failed" rfl rfl
  exact ⟨h.1, h.2.2 henvC2w (.pydict []) rfl rfl,
    h.2.1 bootOkW ⟨⟨"/data", rfl⟩, rfl, rfl, rfl⟩⟩

/-- C3 (refuting evidence): a job whose `input` field is a truthy non-dict
value makes `handler` raise an `AttributeError` to its caller
(`job_input.get(...)` at rp_handler.py line 127 runs outside every
try/except), so `handler` does not return a structured object for every
dict job. -/
theorem handler_raises_on_nondict_input :
    (handler henvC3w ⟨false, false, none⟩ (.pydict [("input", .pystr "boom")])).2 =
      .error (.attributeError "input value has no attribute get") := rfl

/-- C3 (amended): for jobs whose `input` value is falsy or a dict whose
truthy `prompt` is a string, and environments where `API_HTTP_TIMEOUT` (or
its default) parses as an integer, `handler` never raises: it returns a
dictionary, and every error dictionary carries `ready` reflecting the
current initialization state. -/
theorem handler_structured_on_wellformed_jobs (h : HandlerEnv) (st : RTState)
    (jentries : List (String × PyVal))
    (hInput : (pyDictGet jentries "input" .pynone).truthy = false ∨
      ∃ jes, pyDictGet jentries "input" .pynone = .pydict jes)
    (hTimeout : PyStr.intParse (getenvD h.env "API_HTTP_TIMEOUT" "600") ≠ none)
    (hPrompt : ∀ jes, pyDictGet jentries "input" .pynone = .pydict jes →
      (pyDictGet jes "prompt" (.pystr "")).truthy = true →
      ∃ s, pyDictGet jes "prompt" (.pystr "") = .pystr s) :
    structuredOutcome (handler h st (.pydict jentries)) := by
  have hji : ∃ jes2, (if (pyDictGet jentries "input" PyVal.pynone).truthy = true
        then pyDictGet jentries "input" PyVal.pynone else PyVal.pydict []) = .pydict jes2 ∧
      ((pyDictGet jes2 "prompt" (.pystr "")).truthy = true →
        ∃ s, pyDictGet jes2 "prompt" (.pystr "") = .pystr s) := by
    rcases hInput with hf | ⟨jes, hjes⟩
    · refine ⟨[], ?_, ?_⟩
      · rw [if_neg]
        rw [hf]
        exact Bool.false_ne_true
      · intro ht
        exact absurd ht (by decide)
    · by_cases ht0 : (pyDictGet jentries "input" PyVal.pynone).truthy = true
      · exact ⟨jes, by rw [if_pos ht0]; exact hjes, hPrompt jes hjes⟩
      · refine ⟨[], ?_, ?_⟩
        · rw [if_neg ht0]
        · intro ht
          exact absurd ht (by decide)
  obtain ⟨jes2, hji, hp2⟩ := hji
  rcases hir : init_runtime h.env h.boot st with ⟨st1, r, tr⟩
  unfold handler
  rw [hir]
  cases r with
  | error e => exact fun _ => rfl
  | ok u =>
    cases u
    simp only [hji]
    split
    · exact fun _ => rfl
    · split
      · exact fun _ => rfl
      · split
        · rename_i heq
          exact absurd heq hTimeout
        · split
          · rename_i exc hlen
            by_cases ht : (pyDictGet jes2 "prompt" (.pystr "")).truthy = true
            · obtain ⟨s, hs⟩ := hp2 ht
              rw [if_pos ht, hs] at hlen
              simp [pyLen] at hlen
            · rw [if_neg ht] at hlen
              simp [pyLen] at hlen
          · split
            · intro hc
              exact Bool.noConfusion hc
            · exact fun _ => rfl

/-- Witness for the amended C3 at a concrete well-formed job. -/
theorem handler_structured_on_wellformed_jobs_witness :
    structuredOutcome (handler henvC3w ⟨false, false, none⟩
      (.pydict [("input", .pydict [("prompt", .pystr "hi")])])) :=
  handler_structured_on_wellformed_jobs henvC3w ⟨false, false, none⟩
    [("input", .pydict [("prompt", .pystr "hi")])]
    (Or.inr ⟨[("prompt", .pystr "hi")], rfl⟩)
    (by decide)
    (fun jes hjes ht => by
      injection hjes with h3
      subst h3
      exact ⟨"hi", rfl⟩)

/-- C8 (refuting evidence): when the daemon returns a malformed (non-JSON)
body with a success status, `handler` does NOT report an inference error: it
returns a success object whose `output` wraps the raw text (`resp.json()`
failure is swallowed at rp_handler.py lines 102-105), and the returned
dictionary has no `error` field at all. -/
theorem handler_returns_malformed_body_as_success :
    handler henvC8w ⟨false, false, none⟩
        (.pydict [("input", .pydict [("prompt", .pystr "hi")])]) =
      (⟨true, true, some "http://127.0.0.1:9997"⟩,
        .ok (.pydict [("output", .pydict [("raw", .pystr "oops")]),
          ("model_uid", .pystr "m1"), ("ready", .pybool true)])) ∧
    List.lookup "error"
      [("output", PyVal.pydict [("raw", PyVal.pystr "oops")]),
        ("model_uid", PyVal.pystr "m1"), ("ready", PyVal.pybool true)] = none :=
  ⟨rfl, rfl⟩

/-- C8 (amended): for a prompt-only job against an initialized worker, when
the daemon response body is not valid JSON, `handler` reports a structured
`inference_error` iff the HTTP status is 400 or more; with a status below
400 the malformed body is returned as a SUCCESS whose `output` is
`{"raw": <body text>}`. -/
theorem handler_inference_error_iff_http_error (h : HandlerEnv) (sp : Bool)
    (ep u p : String) (resp : HttpResp)
    (hep : ep ≠ "") (hu : u ≠ "")
    (hLaunched : h.launchedUid = some u)
    (hTO : h.env "API_HTTP_TIMEOUT" = none)
    (hPost : h.post (.textGen u (.pystr p) 600) = .ok resp)
    (hMalformed : resp.jsonBody = none) :
    (400 ≤ resp.status →
      handler h ⟨true, sp, some ep⟩ (.pydict [("input", .pydict [("prompt", .pystr p)])]) =
        (⟨true, sp, some ep⟩, .ok (.pydict [("error", .pystr "inference_error"),
          ("message", .pystr ("xinference error " ++ toString resp.status ++ ": " ++ resp.text)),
          ("ready", .pybool true)]))) ∧
    (resp.status < 400 →
      handler h ⟨true, sp, some ep⟩ (.pydict [("input", .pydict [("prompt", .pystr p)])]) =
        (⟨true, sp, some ep⟩, .ok (.pydict [("output", .pydict [("raw", .pystr resp.text)]),
          ("model_uid", .pystr u), ("ready", .pybool true)]))) := by
  have hpp : (if (PyVal.pystr p).truthy = true then PyVal.pystr p else PyVal.pystr "") =
      PyVal.pystr p := by
    by_cases hp : (PyVal.pystr p).truthy = true
    · rw [if_pos hp]
    · rw [if_neg hp]
      have hpe : p = "" := by
        by_contra hne
        exact hp (by simp [PyVal.truthy, hne])
      rw [hpe]
  have h600 : PyStr.intParse (getenvD h.env "API_HTTP_TIMEOUT" "600") = some 600 := by
    unfold getenvD
    rw [hTO]
    rfl
  have huid : ensure_model_uid h.launchedUid h.env = .ok u := by
    unfold ensure_model_uid
    rw [hLaunched]
    simp [optTruthy, hu]
  have hcall : call_xinference (some ep) h.post u (.pystr p) none 600 =
      (if 400 ≤ resp.status then
        .error ("xinference error " ++ toString resp.status ++ ": " ++ resp.text)
      else .ok (.pydict [("raw", .pystr resp.text)])) := by
    unfold call_xinference
    rw [if_neg (by simp [optTruthy, hep])]
    simp only [hpp, hPost, hMalformed]
  have hinit : init_runtime h.env h.boot ⟨true, sp, some ep⟩ =
      (⟨true, sp, some ep⟩, .ok (), []) := rfl
  have hkInput : pyDictGet [("input", PyVal.pydict [("prompt", PyVal.pystr p)])] "input"
      PyVal.pynone = PyVal.pydict [("prompt", PyVal.pystr p)] := rfl
  have hdictT : (PyVal.pydict [("prompt", PyVal.pystr p)]).truthy = true := rfl
  have hk1 : pyDictGet [("prompt", PyVal.pystr p)] "prompt" (PyVal.pystr "") =
      PyVal.pystr p := rfl
  have hk2 : pyDictGet [("prompt", PyVal.pystr p)] "image_url" PyVal.pynone =
      PyVal.pynone := rfl
  have hk3 : pyDictGet [("prompt", PyVal.pystr p)] "image_base64" PyVal.pynone =
      PyVal.pynone := rfl
  have hnoneT : PyVal.pynone.truthy = false := rfl
  have hlen : pyLen (PyVal.pystr p) = .ok (p.length : Int) := rfl
  have hready : MODEL_READY ⟨true, sp, some ep⟩ = true := rfl
  have hproj : (⟨true, sp, some ep⟩ : RTState).endpoint = some ep := rfl
  constructor
  · intro h400
    have hcall2 : call_xinference (some ep) h.post u (.pystr p) none 600 =
        .error ("xinference error " ++ toString resp.status ++ ": " ++ resp.text) := by
      rw [hcall, if_pos h400]
    unfold handler
    simp only [hinit, hkInput, hdictT, eq_self_iff_true, if_true, hk1, hk2, hk3, hnoneT,
      Bool.false_eq_true, if_false, huid, h600, hpp, hlen, hready, hproj, hcall2]
  · intro h400
    have hcall2 : call_xinference (some ep) h.post u (.pystr p) none 600 =
        .ok (.pydict [("raw", .pystr resp.text)]) := by
      rw [hcall, if_neg (Nat.not_le.mpr h400)]
    unfold handler
    simp only [hinit, hkInput, hdictT, eq_self_iff_true, if_true, hk1, hk2, hk3, hnoneT,
      Bool.false_eq_true, if_false, huid, h600, hpp, hlen, hready, hproj, hcall2]

/-- Witness for the amended C8: an HTTP 500 with a malformed body is reported
as a structured `inference_error`. -/
theorem handler_inference_error_iff_http_error_witness :
    handler henvC8w2 ⟨true, false, some "http://e"⟩
        (.pydict [("input", .pydict [("prompt", .pystr "hi")])]) =
      (⟨true, false, some "http://e"⟩, .ok (.pydict [("error", .pystr "inference_error"),
        ("message", .pystr "xinference error 500: boom"),
        ("ready", .pybool true)])) := by
  have h := (handler_inference_error_iff_http_error henvC8w2 false "http://e" "m1" "hi"
    ⟨500, "boom", none⟩ (by decide) (by decide) rfl rfl rfl rfl).1 (by decide)
  rw [h]
  rfl

theorem endpointOf_ne_empty (env : Env) (hEp : env "XINFERENCE_ENDPOINT" ≠ some "") :
    endpointOf env ≠ "" := by
  unfold endpointOf getenvD
  cases hx : env "XINFERENCE_ENDPOINT" with
  | some s =>
    simp only [Option.getD_some]
    intro hcon
    exact hEp (by rw [hx, hcon])
  | none =>
    simp only [Option.getD_none]
    intro hcon
    have h2 := congrArg String.data hcon
    rw [String.data_append] at h2
    simp at h2

/-- C9: after a successful fresh initialization (every boot step succeeds),
the canonical job with prompt "a cat" and an image URL, a successful image
fetch, and a daemon answering below 400 with JSON body `j`, yields exactly
`{output: j, model_uid: <launched id>, ready: true}`. -/
theorem handler_happy_path_returns_output (h : HandlerEnv) (st : RTState)
    (u img : String) (j : PyVal) (resp : HttpResp)
    (h0 : st.initialized = false)
    (hok : h.boot.allOk)
    (hEp : h.env "XINFERENCE_ENDPOINT" ≠ some "")
    (hu : u ≠ "")
    (hLaunched : h.launchedUid = some u)
    (hTO : h.env "API_HTTP_TIMEOUT" = none)
    (hFetch : h.fetchUrl (.pystr "http://x/y.png") = .ok img)
    (hPost : ∀ req, h.post req = .ok resp)
    (hStatus : resp.status < 400)
    (hJson : resp.jsonBody = some j) :
    handler h st (.pydict [("input", .pydict
        [("prompt", .pystr "a cat"), ("image_url", .pystr "http://x/y.png")])]) =
      (⟨true, true, some (endpointOf h.env)⟩,
        .ok (.pydict [("output", j), ("model_uid", .pystr u),
          ("ready", .pybool true)])) := by
  have hinit := init_runtime_allOk_full h.env h.boot st h0 hok
  have hepT : optTruthy (some (endpointOf h.env)) = true := by
    simp [optTruthy, endpointOf_ne_empty h.env hEp]
  have h600 : PyStr.intParse (getenvD h.env "API_HTTP_TIMEOUT" "600") = some 600 := by
    unfold getenvD
    rw [hTO]
    rfl
  have huid : ensure_model_uid h.launchedUid h.env = .ok u := by
    unfold ensure_model_uid
    rw [hLaunched]
    simp [optTruthy, hu]
  have hcall : call_xinference (some (endpointOf h.env)) h.post u (.pystr "a cat")
      (some img) 600 = .ok j := by
    unfold call_xinference
    rw [if_neg (by rw [hepT]; exact fun hcon => Bool.noConfusion hcon)]
    simp only [hPost]
    rw [if_neg (Nat.not_le.mpr hStatus), hJson]
  have hkInput : pyDictGet [("input", PyVal.pydict
      [("prompt", PyVal.pystr "a cat"), ("image_url", PyVal.pystr "http://x/y.png")])]
      "input" PyVal.pynone = PyVal.pydict
      [("prompt", PyVal.pystr "a cat"), ("image_url", PyVal.pystr "http://x/y.png")] := rfl
  have hk1 : pyDictGet [("prompt", PyVal.pystr "a cat"),
      ("image_url", PyVal.pystr "http://x/y.png")] "prompt" (PyVal.pystr "") =
      PyVal.pystr "a cat" := rfl
  have hk2 : pyDictGet [("prompt", PyVal.pystr "a cat"),
      ("image_url", PyVal.pystr "http://x/y.png")] "image_url" PyVal.pynone =
      PyVal.pystr "http://x/y.png" := rfl
  have hpp : (if (PyVal.pystr "a cat").truthy = true then PyVal.pystr "a cat"
      else PyVal.pystr "") = PyVal.pystr "a cat" := rfl
  have hlen : pyLen (PyVal.pystr "a cat") = .ok ((5 : Nat) : Int) := rfl
  have hready : MODEL_READY ⟨true, true, some (endpointOf h.env)⟩ = true := rfl
  have hproj : (⟨true, true, some (endpointOf h.env)⟩ : RTState).endpoint =
      some (endpointOf h.env) := rfl
  have hdictT : (PyVal.pydict [("prompt", PyVal.pystr "a cat"),
      ("image_url", PyVal.pystr "http://x/y.png")]).truthy = true := rfl
  have hurlT : (PyVal.pystr "http://x/y.png").truthy = true := rfl
  have hmap : Except.map (some : String → Option String) (Except.ok img) =
      (Except.ok (some img) : Except String (Option String)) := rfl
  unfold handler
  simp only [hinit, hkInput, hdictT, eq_self_iff_true, if_true, hk1, hk2, hurlT,
    hFetch, hmap, huid, h600, hpp, hlen, hready, hproj, hcall]

/-- Witness for C9 at concrete inputs. -/
theorem handler_happy_path_returns_output_witness :
    handler henvC9w ⟨false, false, none⟩ (.pydict [("input", .pydict
        [("prompt", .pystr "a cat"), ("image_url", .pystr "http://x/y.png")])]) =
      (⟨true, true, some "http://127.0.0.1:9997"⟩,
        .ok (.pydict [("output", .pydict [("url", .pystr "v.mp4")]),
          ("model_uid", .pystr "uid-9"), ("ready", .pybool true)])) := by
  have h := handler_happy_path_returns_output henvC9w ⟨false, false, none⟩ "uid-9"
    "IMGBYTES" (.pydict [("url", .pystr "v.mp4")]) ⟨200, "body", some (.pydict [("url", .pystr "v.mp4")])⟩
    rfl ⟨⟨"/data", rfl⟩, rfl, rfl, rfl⟩ (by decide) (by decide) rfl rfl rfl
    (fun req => rfl) (by decide) rfl
  rw [h]
  rfl

/-- C10: with the launched-model id unavailable (falsy), a prompt-only job on
an initialized worker proceeds with the environment-supplied
`VIDEO_MODEL_UID` when that is set and non-empty — returning success carrying
that uid instead of a `model_not_ready` error; when the environment uid is
also absent or empty, the handler returns the `model_not_ready` error object;
and in general `_ensure_model_uid` fails iff both sources are falsy. -/
theorem handler_env_uid_fallback (h : HandlerEnv) (sp : Bool) (ep p : String)
    (j : PyVal) (resp : HttpResp)
    (hep : ep ≠ "")
    (hTO : h.env "API_HTTP_TIMEOUT" = none)
    (hPost : ∀ req, h.post req = .ok resp)
    (hStatus : resp.status < 400)
    (hJson : resp.jsonBody = some j)
    (hL : optTruthy h.launchedUid = false) :
    (∀ uu, h.env "VIDEO_MODEL_UID" = some uu → uu ≠ "" →
      handler h ⟨true, sp, some ep⟩ (.pydict [("input", .pydict [("prompt", .pystr p)])]) =
        (⟨true, sp, some ep⟩, .ok (.pydict [("output", j), ("model_uid", .pystr uu),
          ("ready", .pybool true)]))) ∧
    (optTruthy (h.env "VIDEO_MODEL_UID") = false →
      handler h ⟨true, sp, some ep⟩ (.pydict [("input", .pydict [("prompt", .pystr p)])]) =
        (⟨true, sp, some ep⟩, .ok (.pydict [("error", .pystr "model_not_ready"),
          ("message", .pystr "model not ready"), ("ready", .pybool true)]))) ∧
    (∀ (launched : Option String) (env2 : Env),
      (∃ e, ensure_model_uid launched env2 = .error e) ↔
      (optTruthy launched = false ∧ optTruthy (env2 "VIDEO_MODEL_UID") = false)) := by
  have hLn : ¬ optTruthy h.launchedUid = true := by rw [hL]; exact Bool.noConfusion
  have hpp : (if (PyVal.pystr p).truthy = true then PyVal.pystr p else PyVal.pystr "") =
      PyVal.pystr p := by
    by_cases hp : (PyVal.pystr p).truthy = true
    · rw [if_pos hp]
    · rw [if_neg hp]
      have hpe : p = "" := by
        by_contra hne
        exact hp (by simp [PyVal.truthy, hne])
      rw [hpe]
  have h600 : PyStr.intParse (getenvD h.env "API_HTTP_TIMEOUT" "600") = some 600 := by
    unfold getenvD
    rw [hTO]
    rfl
  have hinit : init_runtime h.env h.boot ⟨true, sp, some ep⟩ =
      (⟨true, sp, some ep⟩, .ok (), []) := rfl
  have hkInput : pyDictGet [("input", PyVal.pydict [("prompt", PyVal.pystr p)])] "input"
      PyVal.pynone = PyVal.pydict [("prompt", PyVal.pystr p)] := rfl
  have hdictT : (PyVal.pydict [("prompt", PyVal.pystr p)]).truthy = true := rfl
  have hk1 : pyDictGet [("prompt", PyVal.pystr p)] "prompt" (PyVal.pystr "") =
      PyVal.pystr p := rfl
  have hk2 : pyDictGet [("prompt", PyVal.pystr p)] "image_url" PyVal.pynone =
      PyVal.pynone := rfl
  have hk3 : pyDictGet [("prompt", PyVal.pystr p)] "image_base64" PyVal.pynone =
      PyVal.pynone := rfl
  have hnoneT : PyVal.pynone.truthy = false := rfl
  have hready : MODEL_READY ⟨true, sp, some ep⟩ = true := rfl
  have hproj : (⟨true, sp, some ep⟩ : RTState).endpoint = some ep := rfl
  refine ⟨?_, ?_, ?_⟩
  · intro uu huuEq huu
    have huid : ensure_model_uid h.launchedUid h.env = .ok uu := by
      unfold ensure_model_uid
      rw [if_neg hLn, huuEq]
      simp [optTruthy, huu]
    have hlen : pyLen (PyVal.pystr p) = .ok (p.length : Int) := rfl
    have hcall : call_xinference (some ep) h.post uu (.pystr p) none 600 = .ok j := by
      unfold call_xinference
      rw [if_neg (by simp [optTruthy, hep])]
      simp only [hpp, hPost]
      rw [if_neg (Nat.not_le.mpr hStatus), hJson]
    unfold handler
    simp only [hinit, hkInput, hdictT, eq_self_iff_true, if_true, hk1, hk2, hk3, hnoneT,
      Bool.false_eq_true, if_false, huid, h600, hpp, hlen, hready, hproj, hcall]
  · intro hu2
    have huid : ensure_model_uid h.launchedUid h.env = .error "model not ready" := by
      unfold ensure_model_uid
      rw [if_neg hLn, if_neg (by rw [hu2]; exact Bool.noConfusion)]
    unfold handler
    simp only [hinit, hkInput, hdictT, eq_self_iff_true, if_true, hk1, hk2, hk3, hnoneT,
      Bool.false_eq_true, if_false, huid, hready, hproj]
  · intro launched env2
    unfold ensure_model_uid
    by_cases hl : optTruthy launched = true
    · rw [if_pos hl, if_pos hl]
      constructor
      · rintro ⟨e, he⟩
        exact Except.noConfusion he
      · rintro ⟨h1, -⟩
        rw [h1] at hl
        exact Bool.noConfusion hl
    · rw [if_neg hl]
      by_cases hu2 : optTruthy (env2 "VIDEO_MODEL_UID") = true
      · rw [if_pos hu2]
        constructor
        · rintro ⟨e, he⟩
          exact Except.noConfusion he
        · rintro ⟨-, h2⟩
          rw [h2] at hu2
          exact Bool.noConfusion hu2
      · rw [if_neg hu2]
        constructor
        · intro hex
          exact ⟨eq_false_of_ne_true hl, eq_false_of_ne_true hu2⟩
        · intro hand
          exact ⟨"model not ready", rfl⟩

/-- Witness for C10: the job proceeds with the environment-supplied uid. -/
theorem handler_env_uid_fallback_witness :
    handler henvC10w ⟨true, false, some "http://e"⟩
        (.pydict [("input", .pydict [("prompt", .pystr "hi")])]) =
      (⟨true, false, some "http://e"⟩, .ok (.pydict [("output", .pydict []),
        ("model_uid", .pystr "env-uid"), ("ready", .pybool true)])) := by
  have h := (handler_env_uid_fallback henvC10w false "http://e" "hi" (.pydict [])
    ⟨200, "body", some (.pydict [])⟩ (by decide) rfl (fun req => rfl) (by decide) rfl
    rfl).1 "env-uid" rfl (by decide)
  rw [h]
